import Mathlib

/-!
Shallow embedding of `tkthread` (src/tkthread/__init__.py and
src/tkthread/_willdispatch.py).

The Python code marshals calls from worker threads onto the thread that
owns the Tcl/Tk interpreter.  The embedding models the data the code
mutates — the `_Result` future objects, the FIFO `queue.Queue`, the
main-thread staging list `_call_from_data`, the outstanding-result set
`_results` and the `_running` flag — as one explicit state record, and
each Python method as a state transformer.  Concurrency is sequentialised:
one iteration of the `_tcl_thread` loop body and one invocation of
`_call_from` are each a step, and a "round" is the transport step followed
by the main-thread step, which is exactly how one queued request is
processed.

Python values are a type parameter `V`; a Python callable of the marshaled
kind is `List V → List (String × V) → PyResult V` (positional args,
keyword args, result-or-raised-exception).  `_Result` objects live in a
store indexed by `Nat` identities, mirroring Python object identity, so
that membership of the `_results` set is decidable.
-/

/-- Captured Python exception data: the exception class name and the
message, as produced by `sys.exc_info()` (the traceback is dropped when
the exception is re-raised as `exc_type(exc_value)`). -/
structure ExcInfo where
  excType : String
  excValue : String
deriving DecidableEq, Repr

/-- Outcome of running a Python callable: a value, or a raised exception. -/
abbrev PyResult (V : Type) := Except ExcInfo V

/-- Embedding of `_Result.__init__` state (src/tkthread/__init__.py
lines 120-125): `event` unset, `result = None`, `is_error = False`.
`result` holds either a value (`Sum.inl`) or captured exception data
(`Sum.inr`), matching the two kinds of payload `set` receives. -/
structure _Result (V : Type) where
  event : Bool
  result : Option (V ⊕ ExcInfo)
  is_error : Bool
deriving DecidableEq, Repr

/-- `_Result()` constructor. -/
def _Result.init (V : Type) : _Result V :=
  { event := false, result := none, is_error := false }

/-- Embedding of `_Result.set` (lines 127-130): assigns `result` and
`is_error` unconditionally, then sets the event.  There is no
already-resolved guard in the source, so every field is overwritten. -/
def _Result.set (_r : _Result V) (result : V ⊕ ExcInfo) (is_error : Bool) :
    _Result V :=
  { event := true, result := some result, is_error := is_error }

/-- Embedding of `_Result.get` (lines 132-138).  `event.wait()` blocks
until the event is set, which the sequential model renders as `none`
("still blocked"); once the event is set, an error result re-raises
`exc_type(exc_value)` and a normal result is returned. -/
def _Result.get (r : _Result V) : Option (PyResult V) :=
  if r.event = false then none
  else if r.is_error then
    match r.result with
    | some (Sum.inr e) => some (Except.error ⟨e.excType, e.excValue⟩)
    | _ => none
  else
    match r.result with
    | some (Sum.inl v) => some (Except.ok v)
    | _ => none

/-- C2 counterexample: a second `set` on an already-resolved `_Result`
is not a no-op — it overwrites the stored result.  With the first
resolution storing `1` and the second storing `2`, the stored result
after the second call is `2`, not `1`. -/
theorem result_set_second_overwrites :
    (((_Result.init Nat).set (Sum.inl 1) false).set (Sum.inl 2) false).result
      = some (Sum.inl 2) ∧
    (((_Result.init Nat).set (Sum.inl 1) false).set (Sum.inl 2) false).result
      ≠ (((_Result.init Nat).set (Sum.inl 1) false)).result := by
  constructor
  · rfl
  · decide

/-- C2 amended: `_Result.set` implements a last-write-wins policy.  A
subsequent call to `set` overwrites the stored result and the error
flag with the new arguments; the completion signal remains set (the
second `event.set()` is the only no-op part). -/
theorem result_set_last_write_wins (r : _Result V) (x x' : V ⊕ ExcInfo)
    (e e' : Bool) :
    (r.set x e).set x' e' = { event := true, result := some x', is_error := e' } ∧
    ((r.set x e).set x' e').event = true ∧
    ((r.set x e).event = true) := by
  exact ⟨rfl, rfl, rfl⟩

/-- Embedding of the tuples `(func, args, kwargs, tres)` that
`TkThread.__call__` and `TkThread.nosync` put on `_thread_queue`
(lines 219 and 224).  `tres` is the identity of the associated
`_Result`, or `none` for a fire-and-forget call. -/
structure CallRequest (V : Type) where
  func : List V → List (String × V) → PyResult V
  args : List V
  kwargs : List (String × V)
  tres : Option Nat

/-- Pointwise update of the `_Result` store at one identity. -/
def updStore (st : Nat → _Result V) (id : Nat) (r : _Result V) :
    Nat → _Result V :=
  fun j => if j = id then r else st j

theorem updStore_same (st : Nat → _Result V) (id : Nat) (r : _Result V) :
    updStore st id r id = r := by
  simp [updStore]

theorem updStore_other (st : Nat → _Result V) (id j : Nat) (r : _Result V)
    (h : j ≠ id) : updStore st id r j = st j := by
  simp [updStore, h]

/-- The mutable state of a `TkThread` object (fields of
`TkThread.__init__`, lines 155-171): the recorded owner thread
`_main_thread`, the Tcl id string `_main_thread_id`, the main-thread
staging list `_call_from_data`, the FIFO `_thread_queue` (whose entries
are `none` for the `None` shutdown sentinel or a queued request), the
outstanding-result set `_results` (identities of `_Result` objects), and
the `_running` flag.  `store` maps each identity to the current state of
that `_Result` object, `_th_started` records that the background
`_tcl_thread` worker was spawned, and `fresh` is the next unused
`_Result` identity (Python object identity, model bookkeeping). -/
structure TkThread (V : Type) where
  _main_thread : Nat
  _main_thread_id : String
  _call_from_data : List (CallRequest V)
  _thread_queue : List (Option (CallRequest V))
  _results : List Nat
  store : Nat → _Result V
  _running : Bool
  _th_started : Bool
  fresh : Nat

/-- Embedding of one iteration of the `_tcl_thread` loop body
(lines 205-210): if `_running` is false the loop exits; otherwise the
worker blocks on `_thread_queue.get()` (no state change while the queue
is empty), exits on the `None` sentinel, and otherwise appends the item
to `_call_from_data` and issues the `thread::send` that will run
`_call_from` on the main thread. -/
def TkThread._tcl_thread_step (s : TkThread V) : TkThread V :=
  if s._running = false then s
  else
    match s._thread_queue with
    | [] => s
    | none :: rest => { s with _thread_queue := rest }
    | some req :: rest =>
        { s with _thread_queue := rest,
                 _call_from_data := s._call_from_data ++ [req] }

/-- Embedding of `TkThread._call_from` (lines 182-195), which runs on
the main thread: pop the oldest staged request, run its function, and
in the `finally` block — on the success path and on the exception path
alike — resolve the associated `_Result` (value with `is_error = False`,
or `sys.exc_info()` data with `is_error = True`) and discard it from
`_results`.  Returns the executed request alongside the new state so
execution order is observable; an empty staging list cannot occur in the
protocol and leaves the state unchanged. -/
def TkThread._call_from (s : TkThread V) :
    TkThread V × Option (CallRequest V) :=
  match s._call_from_data with
  | [] => (s, none)
  | req :: rest =>
    let s1 := { s with _call_from_data := rest }
    match req.func req.args req.kwargs, req.tres with
    | _, none => (s1, some req)
    | Except.ok v, some id =>
        ({ s1 with
             store := updStore s1.store id
               ((s1.store id).set (Sum.inl v) false),
             _results := s1._results.erase id }, some req)
    | Except.error e, some id =>
        ({ s1 with
             store := updStore s1.store id
               ((s1.store id).set (Sum.inr e) true),
             _results := s1._results.erase id }, some req)

/-- The `_Result` state a request's future reaches after `_call_from`
executes it, as a function of the call's outcome. -/
def resolveResult (o : PyResult V) : _Result V :=
  match o with
  | Except.ok v => { event := true, result := some (Sum.inl v), is_error := false }
  | Except.error e => { event := true, result := some (Sum.inr e), is_error := true }

theorem resolveResult_get (o : PyResult V) : (resolveResult o).get = some o := by
  cases o <;> rfl

/-- One processed request: the transport worker moves the queue head to
the staging list and `thread::send` runs `_call_from` on the main
thread. -/
def TkThread.round (s : TkThread V) : TkThread V × Option (CallRequest V) :=
  TkThread._call_from (TkThread._tcl_thread_step s)

/-- `n` processed requests, collecting the executed requests in
execution order. -/
def TkThread.runRounds : Nat → TkThread V → TkThread V × List (CallRequest V)
  | 0, s => (s, [])
  | n + 1, s =>
    let p := TkThread.round s
    let q := TkThread.runRounds n p.1
    (q.1, p.2.toList ++ q.2)

/-- Outcome of `TkThread.__call__` in the sequential model: the inline
fast path returns immediately on the owner thread with the (unchanged)
state and the call's direct outcome; the cross-thread path leaves the
caller blocked in `tres.get()` with the enqueued state and the identity
of the new `_Result`. -/
inductive CallOutcome (V : Type) where
  | inline (s : TkThread V) (res : PyResult V)
  | blocked (s : TkThread V) (id : Nat)

/-- Embedding of `TkThread.__call__` (lines 212-220).  On the thread
recorded as `_main_thread` the function is applied inline and its result
or exception returned unchanged, with no state change.  On any other
thread a fresh `_Result` is created, added to `_results`, and the
request `(func, args, kwargs, tres)` is put on the FIFO queue; the
caller then blocks on `tres.get()`. -/
def TkThread.call (s : TkThread V) (caller : Nat)
    (func : List V → List (String × V) → PyResult V)
    (args : List V) (kwargs : List (String × V)) : CallOutcome V :=
  if caller = s._main_thread then
    CallOutcome.inline s (func args kwargs)
  else
    let id := s.fresh
    CallOutcome.blocked
      { s with
          store := updStore s.store id (_Result.init V),
          _results := if id ∈ s._results then s._results else id :: s._results,
          _thread_queue := s._thread_queue ++ [some ⟨func, args, kwargs, some id⟩],
          fresh := id + 1 } id

/-- Embedding of `TkThread.nosync` (lines 222-224): put
`(func, args, kwargs, None)` on the queue and return.  The method body
never consults the calling thread's identity, so `caller` is recorded
but unused — the call is deferred onto the queue even on the owner
thread. -/
def TkThread.nosync (s : TkThread V) (caller : Nat)
    (func : List V → List (String × V) → PyResult V)
    (args : List V) (kwargs : List (String × V)) : TkThread V :=
  let _ := caller
  { s with _thread_queue := s._thread_queue ++ [some ⟨func, args, kwargs, none⟩] }

/-- The builtin `int` used by `TkThread.flush` as "a basic callable to
put on the queue": called with no arguments it returns `0`. -/
def pyInt : List Nat → List (String × Nat) → PyResult Nat :=
  fun _ _ => Except.ok 0

/-- Embedding of `TkThread.flush` (lines 226-228): `self(int)`, i.e. a
synchronous `__call__` of the builtin `int` with no arguments. -/
def TkThread.flush (s : TkThread Nat) (caller : Nat) : CallOutcome Nat :=
  TkThread.call s caller pyInt [] []

/-- The `_Result` state forced by `TkThread.destroy`:
`set((RuntimeError, 'destroyed', None), is_error=True)`. -/
def destroyedResult (V : Type) : _Result V :=
  { event := true,
    result := some (Sum.inr ⟨"RuntimeError", "destroyed"⟩),
    is_error := true }

/-- The `while self._results` loop of `TkThread.destroy`
(lines 239-245): pop one identity from the outstanding set and force
that `_Result` to the destroyed error, until the set is empty.  The
Python `set.pop` order is arbitrary; the model consumes the list front
to back, which is one admissible order. -/
def destroyLoop : List Nat → (Nat → _Result V) → (Nat → _Result V)
  | [], st => st
  | id :: rest, st =>
      destroyLoop rest
        (updStore st id ((st id).set (Sum.inr ⟨"RuntimeError", "destroyed"⟩) true))

/-- Embedding of `TkThread.destroy` (lines 230-245): clear `_running`,
put the `None` sentinel on the queue to unblock `_tcl_thread`, then
drain `_results`, forcing each still-outstanding `_Result` to the
`RuntimeError('destroyed')` error. -/
def TkThread.destroy (s : TkThread V) : TkThread V :=
  { s with
      _running := false,
      _thread_queue := s._thread_queue ++ [none],
      store := destroyLoop s._results s.store,
      _results := [] }

/-- The `root.tk` callable surface as seen by `TkThread.install`
(lines 173-180): either the original `_tkinter.tkapp` object, or a
`_TkIntercept` wrapper around an inner surface (line 178 constructs
`_TkIntercept(self.root.tk, self)`, so wrapping can nest). -/
inductive TkSurface where
  | tkapp
  | intercept (inner : TkSurface)
deriving DecidableEq, Repr

/-- The externally supplied `tkinter.Tk` root object, reduced to what
the embedded code reads and writes: the thread that owns its Tcl
interpreter, the string its interpreter returns for `thread::id`, its
`children` dictionary (as the list of child names), and its `tk`
callable surface. -/
structure Root where
  ownerThread : Nat
  tclThreadId : String
  children : List String
  tk : TkSurface
deriving DecidableEq, Repr

/-- Modelled from the spec: `root.eval` is the external Tcl interpreter
surface, out of scope of the repository.  Per the spec's owner-context
contract (and the apartment errors quoted in the module docstring,
"RuntimeError: Calling Tcl from different apartment"), the interpreter
may only be entered on its owner thread; on the owner thread `eval`
returns the interpreter's reply, modelled for the two commands
`TkThread.__init__` issues. -/
def Root.eval (r : Root) (caller : Nat) (cmd : String) :
    Except ExcInfo String :=
  if caller = r.ownerThread then
    Except.ok (if cmd = "thread::id" then r.tclThreadId else "")
  else
    Except.error ⟨"RuntimeError", "Calling Tcl from different apartment"⟩

/-- Embedding of `TkThread.__init__` (lines 155-171) for a given
constructing thread: record the current thread as `_main_thread`, run
`package require Thread` and `thread::id` on the root's interpreter
(each of which raises off the owner thread and aborts construction),
then initialise the bookkeeping, set `_running = True` and start the
`_tcl_thread` worker. -/
def TkThread.init (V : Type) (caller : Nat) (root : Root) :
    Except ExcInfo (TkThread V) :=
  match root.eval caller "package require Thread" with
  | Except.error e => Except.error e
  | Except.ok _ =>
    match root.eval caller "thread::id" with
    | Except.error e => Except.error e
    | Except.ok tid =>
        Except.ok
          { _main_thread := caller,
            _main_thread_id := tid,
            _call_from_data := [],
            _thread_queue := [],
            _results := [],
            store := fun _ => _Result.init V,
            _running := true,
            _th_started := true,
            fresh := 0 }

/-- Embedding of `TkThread.install` (lines 173-180): raise
`RuntimeError('root can not have children')` if the root has children,
otherwise replace `root.tk` with a `_TkIntercept` wrapper around the
current surface and succeed.  The source keeps no installed-before
flag: nothing else is inspected. -/
def TkThread.install (r : Root) : Except ExcInfo Root :=
  if r.children = [] then
    Except.ok { r with tk := TkSurface.intercept r.tk }
  else
    Except.error ⟨"RuntimeError", "root can not have children"⟩

/-- `_tk_dispatcher._RETRY_COUNT` (src/tkthread/_willdispatch.py
line 55). -/
def _RETRY_COUNT : Nat := 10

/-- The loop of the wrapped methods built by `_tk_dispatcher._make_func`
(lines 68-94), at attempt index `n` with `k` retries still allowed
(`k = rcount - n`): `willdispatch()` arms the interpreter and the
underlying `tkapp` method is attempted — both folded into `prim n`, the
outcome of attempt `n`.  A `RuntimeError` is retried while `n < rcount`
(`k > 0`); at `n = rcount` (`k = 0`) the `else` branch of
`if n < rcount` re-raises the exception; any exception other than
`RuntimeError` propagates immediately (only `except RuntimeError`
appears in the source). -/
def makeFuncAux (prim : Nat → PyResult V) (n : Nat) : Nat → PyResult V
  | 0 =>
    match prim n with
    | Except.ok v => Except.ok v
    | Except.error e => Except.error e
  | k + 1 =>
    match prim n with
    | Except.ok v => Except.ok v
    | Except.error e =>
        if e.excType = "RuntimeError" then makeFuncAux prim (n + 1) k
        else Except.error e

/-- A wrapped `_tk_dispatcher` method applied to fixed arguments, as a
function of the per-attempt outcome `prim`: the `for n in
range(rcount + 1)` loop starts at attempt 0 with
`_RETRY_COUNT` retries allowed. -/
def makeFuncCall (prim : Nat → PyResult V) : PyResult V :=
  makeFuncAux prim 0 _RETRY_COUNT

/-- `_ENSURE_COUNT` (src/tkthread/_willdispatch.py line 190). -/
def _ENSURE_COUNT : Nat := 10

/-- The `for n in range(tries)` loop of `_ensure_after_idle`
(lines 192-207), at attempt index `n` with `k` attempts still allowed
(`k = tries - n`): `widget.willdispatch()` plus
`widget.after_idle(func)` are folded into `prim n`.  A `RuntimeError`
is swallowed (`except RuntimeError: pass`) and the loop continues; when
the range is exhausted (`k = 0`) the `for`-`else` raises
`RuntimeError('unable to call after_idle')`. -/
def ensureAfterIdleAux (prim : Nat → PyResult V) (n : Nat) : Nat → PyResult V
  | 0 => Except.error ⟨"RuntimeError", "unable to call after_idle"⟩
  | k + 1 =>
    match prim n with
    | Except.ok v => Except.ok v
    | Except.error e =>
        if e.excType = "RuntimeError" then ensureAfterIdleAux prim (n + 1) k
        else Except.error e

/-- `_ensure_after_idle(widget, func)` with the default `tries=None`,
i.e. `tries = _ENSURE_COUNT`, as a function of the per-attempt outcome
`prim`: the loop starts at attempt 0 with `_ENSURE_COUNT` attempts
allowed. -/
def ensureAfterIdleCall (prim : Nat → PyResult V) : PyResult V :=
  ensureAfterIdleAux prim 0 _ENSURE_COUNT

theorem round_step (s : TkThread V) (req : CallRequest V)
    (rest : List (Option (CallRequest V)))
    (hd : s._call_from_data = []) (hr : s._running = true)
    (hq : s._thread_queue = some req :: rest) :
    (s.round).2 = some req ∧
    (s.round).1._call_from_data = [] ∧
    (s.round).1._running = true ∧
    (s.round).1._thread_queue = rest ∧
    (s.round).1._main_thread = s._main_thread ∧
    (s.round).1.fresh = s.fresh ∧
    (req.tres = none →
      (s.round).1.store = s.store ∧ (s.round).1._results = s._results) := by
  cases hf : req.func req.args req.kwargs <;>
    cases ht : req.tres <;>
      simp [TkThread.round, TkThread._tcl_thread_step, TkThread._call_from,
            hd, hr, hq, hf, ht]

theorem round_store_eq (s : TkThread V) (req : CallRequest V)
    (rest : List (Option (CallRequest V))) (id : Nat)
    (hd : s._call_from_data = []) (hr : s._running = true)
    (hq : s._thread_queue = some req :: rest) (ht : req.tres = some id) :
    (s.round).1.store id = resolveResult (req.func req.args req.kwargs) := by
  cases hf : req.func req.args req.kwargs <;>
    simp [TkThread.round, TkThread._tcl_thread_step, TkThread._call_from,
          hd, hr, hq, hf, ht, _Result.set, resolveResult, updStore_same]

theorem runRounds_drain (Q : List (CallRequest V)) :
    ∀ (s : TkThread V) (R : List (Option (CallRequest V))),
      s._call_from_data = [] → s._running = true →
      s._thread_queue = Q.map some ++ R →
      (TkThread.runRounds Q.length s).2 = Q ∧
      (TkThread.runRounds Q.length s).1._call_from_data = [] ∧
      (TkThread.runRounds Q.length s).1._running = true ∧
      (TkThread.runRounds Q.length s).1._thread_queue = R ∧
      (TkThread.runRounds Q.length s).1._main_thread = s._main_thread ∧
      (TkThread.runRounds Q.length s).1.fresh = s.fresh ∧
      ((∀ r ∈ Q, r.tres = none) →
        (TkThread.runRounds Q.length s).1.store = s.store ∧
        (TkThread.runRounds Q.length s).1._results = s._results) := by
  induction Q with
  | nil =>
    intro s R hd hr hq
    simp only [List.map_nil, List.nil_append] at hq
    exact ⟨rfl, hd, hr, hq, rfl, rfl, fun _ => ⟨rfl, rfl⟩⟩
  | cons q Q ih =>
    intro s R hd hr hq
    have hq' : s._thread_queue = some q :: (Q.map some ++ R) := by simpa using hq
    obtain ⟨h2, hd1, hr1, hq1, hm1, hf1, hn1⟩ := round_step s q _ hd hr hq'
    obtain ⟨ih2, ihd, ihr, ihq, ihm, ihf, ihn⟩ :=
      ih (TkThread.round s).1 R hd1 hr1 hq1
    simp only [List.length_cons, TkThread.runRounds]
    refine ⟨by simp [h2, ih2], ihd, ihr, ihq, ihm.trans hm1, ihf.trans hf1, ?_⟩
    intro hall
    obtain ⟨hs1, hres1⟩ := hn1 (hall q (List.mem_cons_self q Q))
    obtain ⟨hs2, hres2⟩ := ihn (fun r hrQ => hall r (List.mem_cons_of_mem q hrQ))
    exact ⟨hs2.trans hs1, hres2.trans hres1⟩

theorem destroyLoop_not_mem (l : List Nat) (st : Nat → _Result V) (id : Nat)
    (h : id ∉ l) : destroyLoop l st id = st id := by
  induction l generalizing st with
  | nil => rfl
  | cons a l ih =>
    simp only [List.mem_cons, not_or] at h
    rw [destroyLoop, ih _ h.2]
    exact updStore_other _ _ _ _ h.1

theorem destroyLoop_mem (l : List Nat) (st : Nat → _Result V) (id : Nat)
    (h : id ∈ l) : destroyLoop l st id = destroyedResult V := by
  induction l generalizing st with
  | nil => cases h
  | cons a l ih =>
    by_cases hmem : id ∈ l
    · rw [destroyLoop]
      exact ih _ hmem
    · have hia : id = a := by
        rcases List.mem_cons.mp h with h1 | h2
        · exact h1
        · exact absurd h2 hmem
      subst hia
      rw [destroyLoop, destroyLoop_not_mem l _ id hmem, updStore_same]
      rfl

/-- C3: `destroy` clears `_running`, pushes the `None` sentinel onto the
queue to unblock `_tcl_thread`, empties the outstanding set, and forces
every still-outstanding `_Result` to the `RuntimeError` destroyed
state, so that a caller blocked in `_Result.get` has
`RuntimeError('destroyed')` raised — an error whose message is
`"destroyed"`.  Each identity is removed from `_results` as it is
failed (pop-then-set in the source loop). -/
theorem destroy_fails_outstanding (s : TkThread V) (id : Nat)
    (hid : id ∈ s._results) :
    (s.destroy)._running = false ∧
    (s.destroy)._thread_queue = s._thread_queue ++ [none] ∧
    (s.destroy)._results = [] ∧
    (s.destroy).store id = destroyedResult V ∧
    ((s.destroy).store id).get
      = some (Except.error ⟨"RuntimeError", "destroyed"⟩) := by
  refine ⟨rfl, rfl, rfl, destroyLoop_mem _ _ _ hid, ?_⟩
  have h : (s.destroy).store id = destroyedResult V := destroyLoop_mem _ _ _ hid
  rw [h]
  rfl

/-- A concrete `TkThread Nat` state with one outstanding `_Result`
(identity 7), used to evaluate the destroy path. -/
def destroySample : TkThread Nat :=
  { _main_thread := 0,
    _main_thread_id := "tid1",
    _call_from_data := [],
    _thread_queue := [],
    _results := [7],
    store := fun _ => _Result.init Nat,
    _running := true,
    _th_started := true,
    fresh := 8 }

/-- C3 witness: the destroy theorem evaluated on a concrete state whose
outstanding set holds identity 7. -/
theorem destroy_fails_outstanding_witness :
    (destroySample.destroy)._running = false ∧
    (destroySample.destroy)._thread_queue = destroySample._thread_queue ++ [none] ∧
    (destroySample.destroy)._results = [] ∧
    (destroySample.destroy).store 7 = destroyedResult Nat ∧
    ((destroySample.destroy).store 7).get
      = some (Except.error ⟨"RuntimeError", "destroyed"⟩) :=
  destroy_fails_outstanding destroySample 7 (by simp [destroySample])

theorem round_get_eq (s : TkThread V) (req : CallRequest V)
    (rest : List (Option (CallRequest V))) (id : Nat)
    (hd : s._call_from_data = []) (hr : s._running = true)
    (hq : s._thread_queue = some req :: rest) (ht : req.tres = some id) :
    ((s.round).1.store id).get = some (req.func req.args req.kwargs) := by
  rw [round_store_eq s req rest id hd hr hq ht, resolveResult_get]

/-- C1: the synchronous call path.  On the owner thread `__call__`
executes the function inline — state untouched, result (or raised
exception) returned unchanged.  From any other thread it creates a
`_Result`, registers it in `_results`, enqueues the request at the
queue tail, and blocks in `tres.get()`; once the transport worker and
the main thread process the request, `get` yields exactly the outcome
of `func(*args, **kwargs)` — the value, or the captured error
re-raised. -/
theorem tkthread_call_roundtrip (s : TkThread V) (caller : Nat)
    (func : List V → List (String × V) → PyResult V)
    (args : List V) (kwargs : List (String × V))
    (hd : s._call_from_data = []) (hr : s._running = true)
    (hq : s._thread_queue = []) :
    (caller = s._main_thread →
      s.call caller func args kwargs = CallOutcome.inline s (func args kwargs)) ∧
    (caller ≠ s._main_thread →
      ∃ (s1 : TkThread V) (id : Nat),
        s.call caller func args kwargs = CallOutcome.blocked s1 id ∧
        id ∈ s1._results ∧
        s1._thread_queue = s._thread_queue ++ [some ⟨func, args, kwargs, some id⟩] ∧
        ((s1.round).1.store id).get = some (func args kwargs)) := by
  constructor
  · intro h
    simp [TkThread.call, h]
  · intro h
    refine ⟨{ s with
        store := updStore s.store s.fresh (_Result.init V),
        _results := if s.fresh ∈ s._results then s._results
                    else s.fresh :: s._results,
        _thread_queue := s._thread_queue ++ [some ⟨func, args, kwargs, some s.fresh⟩],
        fresh := s.fresh + 1 }, s.fresh, by simp [TkThread.call, h], ?_, rfl, ?_⟩
    · by_cases hm : s.fresh ∈ s._results <;> simp [hm]
    · exact round_get_eq _ ⟨func, args, kwargs, some s.fresh⟩ [] s.fresh hd hr
        (by simp [hq]) rfl

/-- A concrete quiescent `TkThread Nat` state (owner thread 0, empty
queue and staging list). -/
def quietSample : TkThread Nat :=
  { _main_thread := 0,
    _main_thread_id := "tid1",
    _call_from_data := [],
    _thread_queue := [],
    _results := [],
    store := fun _ => _Result.init Nat,
    _running := true,
    _th_started := true,
    fresh := 0 }

/-- A concrete marshaled callable: add the first two positional
arguments. -/
def addFunc : List Nat → List (String × Nat) → PyResult Nat :=
  fun args _ =>
    match args with
    | a :: b :: _ => Except.ok (a + b)
    | _ => Except.error ⟨"TypeError", "two arguments required"⟩

/-- C1 witness: the round-trip theorem evaluated on a concrete
quiescent state, called from thread 1 (not the owner, thread 0) with
`addFunc` and arguments `[3, 4]`. -/
theorem tkthread_call_roundtrip_witness :
    (1 = quietSample._main_thread →
      quietSample.call 1 addFunc [3, 4] []
        = CallOutcome.inline quietSample (addFunc [3, 4] [])) ∧
    (1 ≠ quietSample._main_thread →
      ∃ (s1 : TkThread Nat) (id : Nat),
        quietSample.call 1 addFunc [3, 4] [] = CallOutcome.blocked s1 id ∧
        id ∈ s1._results ∧
        s1._thread_queue
          = quietSample._thread_queue ++ [some ⟨addFunc, [3, 4], [], some id⟩] ∧
        ((s1.round).1.store id).get = some (addFunc [3, 4] [])) :=
  tkthread_call_roundtrip quietSample 1 addFunc [3, 4] [] rfl rfl rfl

/-- C4: constructing a `TkThread` succeeds exactly on the thread that
owns the root's Tcl interpreter.  Off the owner thread, the
`root.eval('package require Thread')` call in `__init__` raises the
apartment `RuntimeError` — the owner-thread construction error — and
construction aborts before the worker is spawned or `_running` is set.
On the owner thread construction succeeds with `_running = True` and
the `_tcl_thread` transport worker started. -/
theorem init_owner_thread (caller : Nat) (root : Root) :
    (caller ≠ root.ownerThread →
      TkThread.init Nat caller root
        = Except.error ⟨"RuntimeError", "Calling Tcl from different apartment"⟩) ∧
    (caller = root.ownerThread →
      ∃ s : TkThread Nat,
        TkThread.init Nat caller root = Except.ok s ∧
        s._running = true ∧ s._th_started = true ∧
        s._main_thread = caller ∧ s._main_thread_id = root.tclThreadId) := by
  constructor
  · intro h
    simp [TkThread.init, Root.eval, h]
  · intro h
    refine ⟨{ _main_thread := caller, _main_thread_id := root.tclThreadId,
              _call_from_data := [], _thread_queue := [], _results := [],
              store := fun _ => _Result.init Nat, _running := true,
              _th_started := true, fresh := 0 }, ?_, rfl, rfl, rfl, rfl⟩
    simp [TkThread.init, Root.eval, h]

/-- A concrete root: Tcl interpreter owned by thread 0, no children,
unwrapped `tk` surface. -/
def rootSample : Root :=
  { ownerThread := 0, tclThreadId := "tcl-main", children := [],
    tk := TkSurface.tkapp }

/-- C4 witness: construction from thread 1 (not the owner) fails with
the apartment error; construction from thread 0 (the owner) succeeds,
running and with the worker started. -/
theorem init_owner_thread_witness :
    (TkThread.init Nat 1 rootSample
      = Except.error ⟨"RuntimeError", "Calling Tcl from different apartment"⟩) ∧
    (∃ s : TkThread Nat,
        TkThread.init Nat 0 rootSample = Except.ok s ∧
        s._running = true ∧ s._th_started = true ∧
        s._main_thread = 0 ∧ s._main_thread_id = rootSample.tclThreadId) :=
  ⟨(init_owner_thread 1 rootSample).1 (by decide),
   (init_owner_thread 0 rootSample).2 rfl⟩

/-- C6: `nosync` puts a request whose `tres` field is `None` at the
tail of the FIFO queue and changes nothing else — in particular the
staging list, the `_Result` store and the outstanding set are untouched
(nothing executes inline) and the method never consults the calling
thread's identity, so the behaviour on the owner thread (here
instantiated as `s._main_thread`) is the same deferral; two `nosync`
calls enqueue in submission order. -/
theorem nosync_defers (s : TkThread V) (caller : Nat)
    (func : List V → List (String × V) → PyResult V)
    (args : List V) (kwargs : List (String × V))
    (g : List V → List (String × V) → PyResult V)
    (bargs : List V) (bkwargs : List (String × V)) :
    s.nosync caller func args kwargs
      = { s with _thread_queue
            := s._thread_queue ++ [some ⟨func, args, kwargs, none⟩] } ∧
    s.nosync s._main_thread func args kwargs = s.nosync caller func args kwargs ∧
    ((s.nosync caller func args kwargs).nosync caller g bargs bkwargs)._thread_queue
      = s._thread_queue ++ [some ⟨func, args, kwargs, none⟩,
                            some ⟨g, bargs, bkwargs, none⟩] := by
  refine ⟨rfl, rfl, ?_⟩
  simp [TkThread.nosync]

/-- The result of installing once on `rootSample`: `root.tk` replaced
by one `_TkIntercept` wrapper. -/
def rootInstalled : Root :=
  { ownerThread := 0, tclThreadId := "tcl-main", children := [],
    tk := TkSurface.intercept TkSurface.tkapp }

/-- C7 counterexample: `install` keeps no installed-before flag, so a
second call on the same (still childless) root does not raise — it
succeeds and wraps the already-installed wrapper in another
`_TkIntercept` layer. -/
theorem install_second_call_no_error :
    TkThread.install rootSample = Except.ok rootInstalled ∧
    TkThread.install rootInstalled
      = Except.ok { ownerThread := 0, tclThreadId := "tcl-main", children := [],
                    tk := TkSurface.intercept (TkSurface.intercept TkSurface.tkapp) } := by
  constructor <;> rfl

/-- C7 amended: a second `install()` on a root without children
succeeds and double-wraps, with the first wrapper left intact as the
inner surface of the new wrapper; `install()` raises only when the root
has children (`RuntimeError('root can not have children')`). -/
theorem install_twice_wraps (r : Root) (h : r.children = []) :
    TkThread.install r = Except.ok { r with tk := TkSurface.intercept r.tk } ∧
    TkThread.install { r with tk := TkSurface.intercept r.tk }
      = Except.ok { r with tk := TkSurface.intercept (TkSurface.intercept r.tk) } ∧
    (∀ r' : Root, r'.children ≠ [] →
      TkThread.install r'
        = Except.error ⟨"RuntimeError", "root can not have children"⟩) := by
  refine ⟨by simp [TkThread.install, h], by simp [TkThread.install, h], ?_⟩
  intro r' h'
  simp [TkThread.install, h']

/-- C7 amended witness: the double-install behaviour evaluated on the
concrete childless `rootSample`, plus the children guard on a root with
one child. -/
theorem install_twice_wraps_witness :
    (TkThread.install rootSample
      = Except.ok { rootSample with tk := TkSurface.intercept rootSample.tk }) ∧
    (TkThread.install { rootSample with tk := TkSurface.intercept rootSample.tk }
      = Except.ok { rootSample with
          tk := TkSurface.intercept (TkSurface.intercept rootSample.tk) }) ∧
    (∀ r' : Root, r'.children ≠ [] →
      TkThread.install r'
        = Except.error ⟨"RuntimeError", "root can not have children"⟩) :=
  install_twice_wraps rootSample rfl

/-- C8: FIFO execution order.  Three requests enqueued in order
`r1, r2, r3` are executed by the main thread in exactly that order.
In addition, the queue discipline is strict FIFO at each step: the
transport worker always moves the head of `_thread_queue` to the tail
of the staging list, and `_call_from` always pops the oldest staged
request (`pop(0)`), with no reordering or priority anywhere. -/
theorem fifo_execution_order (s : TkThread V) (r1 r2 r3 : CallRequest V)
    (hd : s._call_from_data = []) (hr : s._running = true)
    (hq : s._thread_queue = [some r1, some r2, some r3]) :
    (TkThread.runRounds 3 s).2 = [r1, r2, r3] ∧
    (∀ (t : TkThread V) (req : CallRequest V)
        (rest : List (Option (CallRequest V))),
      t._running = true → t._thread_queue = some req :: rest →
      (t._tcl_thread_step)._thread_queue = rest ∧
      (t._tcl_thread_step)._call_from_data = t._call_from_data ++ [req]) ∧
    (∀ (t : TkThread V) (req : CallRequest V) (rest : List (CallRequest V)),
      t._call_from_data = req :: rest →
      (t._call_from).2 = some req ∧
      (t._call_from).1._call_from_data = rest) := by
  refine ⟨?_, ?_, ?_⟩
  · exact (runRounds_drain [r1, r2, r3] s [] hd hr (by simpa using hq)).1
  · intro t req rest ht hq'
    simp [TkThread._tcl_thread_step, ht, hq']
  · intro t req rest hd'
    cases hf : req.func req.args req.kwargs <;> cases htr : req.tres <;>
      simp [TkThread._call_from, hd', hf, htr]

/-- Three concrete requests used to evaluate FIFO order: each carries a
distinguishing constant function and no `_Result`. -/
def reqConst (k : Nat) : CallRequest Nat :=
  ⟨fun _ _ => Except.ok k, [], [], none⟩

/-- C8 witness: the FIFO theorem evaluated on a concrete state whose
queue holds the three requests `reqConst 1, reqConst 2, reqConst 3`. -/
theorem fifo_execution_order_witness :
    (TkThread.runRounds 3
        { quietSample with
            _thread_queue := [some (reqConst 1), some (reqConst 2),
                              some (reqConst 3)] }).2
      = [reqConst 1, reqConst 2, reqConst 3] ∧
    (∀ (t : TkThread Nat) (req : CallRequest Nat)
        (rest : List (Option (CallRequest Nat))),
      t._running = true → t._thread_queue = some req :: rest →
      (t._tcl_thread_step)._thread_queue = rest ∧
      (t._tcl_thread_step)._call_from_data = t._call_from_data ++ [req]) ∧
    (∀ (t : TkThread Nat) (req : CallRequest Nat) (rest : List (CallRequest Nat)),
      t._call_from_data = req :: rest →
      (t._call_from).2 = some req ∧
      (t._call_from).1._call_from_data = rest) :=
  fifo_execution_order
    { quietSample with
        _thread_queue := [some (reqConst 1), some (reqConst 2), some (reqConst 3)] }
    (reqConst 1) (reqConst 2) (reqConst 3) rfl rfl rfl

/-- C9: after `_call_from` executes a request that carries a `_Result`,
that `_Result` is resolved — event set, value stored with
`is_error = False` on success, captured error stored with
`is_error = True` on a raised exception — and its identity has been
discarded from the outstanding set, on both paths (the `finally` block
runs either way). -/
theorem call_from_resolves_and_cleans (s : TkThread V) (req : CallRequest V)
    (rest : List (CallRequest V)) (id : Nat)
    (hd : s._call_from_data = req :: rest) (ht : req.tres = some id)
    (hnd : s._results.Nodup) :
    ((s._call_from).1.store id).event = true ∧
    (∀ v, req.func req.args req.kwargs = Except.ok v →
      (s._call_from).1.store id
        = { event := true, result := some (Sum.inl v), is_error := false }) ∧
    (∀ e, req.func req.args req.kwargs = Except.error e →
      (s._call_from).1.store id
        = { event := true, result := some (Sum.inr e), is_error := true }) ∧
    id ∉ (s._call_from).1._results := by
  cases hf : req.func req.args req.kwargs <;>
    simp [TkThread._call_from, hd, ht, hf, _Result.set, updStore_same,
          hnd.not_mem_erase]

/-- C9 witness: the resolution theorem evaluated on a concrete state
whose staging list holds one request whose callable raises (`addFunc`
applied to a single argument), with `_Result` identity 4 outstanding. -/
theorem call_from_resolves_and_cleans_witness :
    (((({ quietSample with
            _call_from_data := [⟨addFunc, [3], [], some 4⟩],
            _results := [4] } : TkThread Nat)._call_from).1.store 4).event
        = true) ∧
    (∀ v, addFunc [3] [] = Except.ok v →
      (({ quietSample with
            _call_from_data := [⟨addFunc, [3], [], some 4⟩],
            _results := [4] } : TkThread Nat)._call_from).1.store 4
        = { event := true, result := some (Sum.inl v), is_error := false }) ∧
    (∀ e, addFunc [3] [] = Except.error e →
      (({ quietSample with
            _call_from_data := [⟨addFunc, [3], [], some 4⟩],
            _results := [4] } : TkThread Nat)._call_from).1.store 4
        = { event := true, result := some (Sum.inr e), is_error := true }) ∧
    4 ∉ (({ quietSample with
            _call_from_data := [⟨addFunc, [3], [], some 4⟩],
            _results := [4] } : TkThread Nat)._call_from).1._results :=
  call_from_resolves_and_cleans
    { quietSample with
        _call_from_data := [⟨addFunc, [3], [], some 4⟩], _results := [4] }
    ⟨addFunc, [3], [], some 4⟩ [] 4 rfl rfl (by simp)

/-- C10: `flush` is `self(int)`, so on the owner thread it takes the
inline fast path of `__call__`: it returns `int()` = 0 immediately with
the state unchanged — nothing is enqueued and previously enqueued
`nosync` requests are not waited for.  From any other thread it
enqueues a synchronous request at the queue tail behind every
previously enqueued request, so its `_Result` is still unresolved after
the earlier requests (here: `nosync` requests, `tres = None`) have all
been drained in order, and resolves to `0` exactly when its own request
is processed. -/
theorem flush_owner_fast_path (s : TkThread Nat) (caller : Nat)
    (Q : List (CallRequest Nat))
    (hd : s._call_from_data = []) (hr : s._running = true)
    (hq : s._thread_queue = Q.map some)
    (hn : ∀ r ∈ Q, r.tres = none) :
    (caller = s._main_thread →
      TkThread.flush s caller = CallOutcome.inline s (Except.ok 0)) ∧
    (caller ≠ s._main_thread →
      ∃ (s1 : TkThread Nat) (id : Nat),
        TkThread.flush s caller = CallOutcome.blocked s1 id ∧
        s1._thread_queue = Q.map some ++ [some ⟨pyInt, [], [], some id⟩] ∧
        (TkThread.runRounds Q.length s1).2 = Q ∧
        (((TkThread.runRounds Q.length s1).1).store id).get = none ∧
        (((((TkThread.runRounds Q.length s1).1).round).1).store id).get
          = some (Except.ok 0)) := by
  constructor
  · intro h
    simp [TkThread.flush, TkThread.call, h, pyInt]
  · intro h
    set s1 : TkThread Nat :=
      { s with
          store := updStore s.store s.fresh (_Result.init Nat),
          _results := if s.fresh ∈ s._results then s._results
                      else s.fresh :: s._results,
          _thread_queue := s._thread_queue ++ [some ⟨pyInt, [], [], some s.fresh⟩],
          fresh := s.fresh + 1 } with hs1
    have hcall : TkThread.flush s caller = CallOutcome.blocked s1 s.fresh := by
      rw [hs1]
      simp [TkThread.flush, TkThread.call, h]
    have hd1 : s1._call_from_data = [] := by rw [hs1]; exact hd
    have hr1 : s1._running = true := by rw [hs1]; exact hr
    have hq1 : s1._thread_queue
        = Q.map some ++ [some ⟨pyInt, [], [], some s.fresh⟩] := by
      rw [hs1]; simp [hq]
    obtain ⟨hQ2, hdt, hrt, hqt, _, _, hstores⟩ :=
      runRounds_drain Q s1 [some ⟨pyInt, [], [], some s.fresh⟩] hd1 hr1 hq1
    obtain ⟨hst, _⟩ := hstores hn
    refine ⟨s1, s.fresh, hcall, hq1, hQ2, ?_, ?_⟩
    · rw [hst, hs1]
      simp [updStore, _Result.get, _Result.init]
    · exact round_get_eq _ ⟨pyInt, [], [], some s.fresh⟩ [] s.fresh hdt hrt hqt rfl

/-- A concrete `nosync`-style request (no `_Result`). -/
def nosyncReqSample : CallRequest Nat := ⟨fun _ _ => Except.ok 5, [], [], none⟩

/-- A concrete state with one `nosync` request already queued. -/
def flushSample : TkThread Nat :=
  { quietSample with _thread_queue := [some nosyncReqSample] }

/-- C10 witness: the flush theorem evaluated on `flushSample`, called
from thread 1 (not the owner, thread 0), with the queue holding one
earlier `nosync` request. -/
theorem flush_owner_fast_path_witness :
    (1 = flushSample._main_thread →
      TkThread.flush flushSample 1 = CallOutcome.inline flushSample (Except.ok 0)) ∧
    (1 ≠ flushSample._main_thread →
      ∃ (s1 : TkThread Nat) (id : Nat),
        TkThread.flush flushSample 1 = CallOutcome.blocked s1 id ∧
        s1._thread_queue
          = [nosyncReqSample].map some ++ [some ⟨pyInt, [], [], some id⟩] ∧
        (TkThread.runRounds ([nosyncReqSample].length) s1).2 = [nosyncReqSample] ∧
        (((TkThread.runRounds ([nosyncReqSample].length) s1).1).store id).get
          = none ∧
        (((((TkThread.runRounds ([nosyncReqSample].length) s1).1).round).1).store
            id).get
          = some (Except.ok 0)) :=
  flush_owner_fast_path flushSample 1 [nosyncReqSample] rfl rfl rfl
    (by intro r hmem; rw [List.mem_singleton] at hmem; rw [hmem]; rfl)

/-- A concrete flaky scheduling primitive: the wake attempt fails with
the transient `RuntimeError` race on attempt indices 0 through 9 (ten
consecutive transient failures) and succeeds on attempt index 10. -/
def flakyPrim : Nat → PyResult Nat :=
  fun n =>
    if n < 10 then Except.error ⟨"RuntimeError", "transient dispatch race"⟩
    else Except.ok 42

/-- C5 counterexample: the retry budget is not a uniform "10 attempts
per call".  Against the same primitive, whose first ten attempts all
fail transiently, the `_tk_dispatcher` wrapped call still succeeds —
it makes an eleventh attempt (`for n in range(_RETRY_COUNT + 1)` allows
the indices 0 through 10) — while `_ensure_after_idle` gives up after
its ten attempts and raises; the two wake paths obey different bounds,
and the dispatcher path exceeds ten attempts rather than failing. -/
theorem retry_budget_not_uniform_ten :
    flakyPrim 9 = Except.error ⟨"RuntimeError", "transient dispatch race"⟩ ∧
    makeFuncCall flakyPrim = Except.ok 42 ∧
    ensureAfterIdleCall flakyPrim
      = Except.error ⟨"RuntimeError", "unable to call after_idle"⟩ := by
  refine ⟨rfl, rfl, rfl⟩

theorem makeFuncAux_all_fail (prim : Nat → PyResult V) (msg : Nat → String)
    (hfail : ∀ n, prim n = Except.error ⟨"RuntimeError", msg n⟩) :
    ∀ (k n : Nat), makeFuncAux prim n k
      = Except.error ⟨"RuntimeError", msg (n + k)⟩ := by
  intro k
  induction k with
  | zero => intro n; simp [makeFuncAux, hfail n]
  | succ k ih =>
    intro n
    have harith : n + (k + 1) = (n + 1) + k := by omega
    rw [harith]
    simp [makeFuncAux, hfail n, ih (n + 1)]

theorem ensureAfterIdleAux_all_fail (prim : Nat → PyResult V)
    (msg : Nat → String)
    (hfail : ∀ n, prim n = Except.error ⟨"RuntimeError", msg n⟩) :
    ∀ (k n : Nat), ensureAfterIdleAux prim n k
      = Except.error ⟨"RuntimeError", "unable to call after_idle"⟩ := by
  intro k
  induction k with
  | zero => intro n; rfl
  | succ k ih =>
    intro n
    simp [ensureAfterIdleAux, hfail n, ih (n + 1)]

/-- C5 amended: the wake retry bounds, per path.  A `_tk_dispatcher`
wrapped call makes an initial attempt plus up to `_RETRY_COUNT` = 10
retries on transient `RuntimeError` failures — eleven underlying
attempts in all — and when every attempt fails it re-raises the
final attempt's `RuntimeError` (the error of attempt index 10) to the
caller instead of looping further; `_ensure_after_idle` makes up to
`_ENSURE_COUNT` = 10 attempts in all and, when every attempt fails, it
raises `RuntimeError('unable to call after_idle')` to the caller. -/
theorem retry_exhaustion_bounds (prim : Nat → PyResult V) (msg : Nat → String)
    (hfail : ∀ n, prim n = Except.error ⟨"RuntimeError", msg n⟩) :
    makeFuncCall prim = Except.error ⟨"RuntimeError", msg 10⟩ ∧
    ensureAfterIdleCall prim
      = Except.error ⟨"RuntimeError", "unable to call after_idle"⟩ := by
  constructor
  · simpa using makeFuncAux_all_fail prim msg hfail _RETRY_COUNT 0
  · exact ensureAfterIdleAux_all_fail prim msg hfail _ENSURE_COUNT 0

/-- C5 amended witness: the exhaustion bounds evaluated on a concrete
always-failing primitive whose message records the attempt index, so
the surfaced dispatcher error names attempt 10 — the eleventh
attempt. -/
theorem retry_exhaustion_bounds_witness :
    makeFuncCall (V := Nat)
        (fun n => Except.error ⟨"RuntimeError", "race at " ++ toString n⟩)
      = Except.error ⟨"RuntimeError", "race at " ++ toString 10⟩ ∧
    ensureAfterIdleCall (V := Nat)
        (fun n => Except.error ⟨"RuntimeError", "race at " ++ toString n⟩)
      = Except.error ⟨"RuntimeError", "unable to call after_idle"⟩ :=
  retry_exhaustion_bounds
    (fun n => Except.error ⟨"RuntimeError", "race at " ++ toString n⟩)
    (fun n => "race at " ++ toString n) (fun _ => rfl)
